import Mathlib

/-!
Verification of the gmail-checker-sender scripts.

Shallow embedding of the four command-line tools:
  src/send_email.py         (send_email, send_reply, main)
  src/notify_designer.py    (build_designer_email, send_designer_notification)
  src/add_calendar_event.py (load_credentials, add_event)
  src/capture_email.py      (extract_headers, capture_email)

Modelling conventions:
  - Python strings are Lean `String` (the `List Char` model mirrors the
    code-point view Python slicing and replacing use).
  - A Python dict result with optional keys is a structure whose absent keys
    are `none` / `false` defaults.
  - The remote Google API is a record of `Except String`-valued fields: the
    `Except.error` payload is the text str(e) of the exception the call
    raises.  Tools whose try/except converts exceptions into result dicts are
    total functions; capture_email has no try/except, so its embedding is
    itself `Except`-valued and an error value is an exception reaching the
    process boundary uncaught.
  - Every remote call a run issues is logged in an accompanying
    `List RemoteCall`, so "this call was never invoked" is a statement about
    the log.
-/

/-- Python str.lower, per character (the inputs compared here are ASCII). -/
def py_lower (s : String) : String := String.mk (s.data.map Char.toLower)

/-- Python str.upper, per character (the inputs compared here are ASCII). -/
def py_upper (s : String) : String := String.mk (s.data.map Char.toUpper)

/-- Python str.strip: drop leading and trailing whitespace. -/
def py_strip (s : String) : String :=
  String.mk (((s.data.dropWhile Char.isWhitespace).reverse.dropWhile Char.isWhitespace).reverse)

/-- Python slicing s[:n]: the first n characters (all of s when shorter). -/
def py_slice (n : Nat) (s : String) : String := String.mk (s.data.take n)

/-- Python slicing s[n:]: drop the first n characters. -/
def py_drop (n : Nat) (s : String) : String := String.mk (s.data.drop n)

/-- Embeds body.replace of a newline with the four characters of the br
marker, as in send_email.py line 140 and 220 and notify_designer.py line 148:
str.replace scans left to right replacing every non-overlapping occurrence,
which for a one-character pattern is this per-character scan. -/
def html_render_aux : List Char → List Char
  | [] => []
  | c :: rest =>
    if c = '\n' then '<' :: 'b' :: 'r' :: '>' :: html_render_aux rest
    else c :: html_render_aux rest

/-- The HTML body each message-building tool derives from the plain body. -/
def html_render (s : String) : String := String.mk (html_render_aux s.data)

/-- The four characters of the reply pattern "Re: " (with the space), the
first argument of the replace call in send_email.py line 212. -/
def rePat : List Char := ['R', 'e', ':', ' ']

/-- Embeds subject.replace with the pattern "Re: " and an empty replacement,
send_email.py line 212: str.replace removes every non-overlapping occurrence,
scanning left to right and continuing after each match. -/
def stripReAux : List Char → List Char
  | 'R' :: 'e' :: ':' :: ' ' :: rest => stripReAux rest
  | c :: rest => c :: stripReAux rest
  | [] => []

/-- String form of `stripReAux`. -/
def strip_re (s : String) : String := String.mk (stripReAux s.data)

/-- Whether the pattern "Re: " occurs anywhere in the list (spec-side helper
used to state when the replace call leaves a subject unchanged). -/
def containsRe : List Char → Bool
  | [] => false
  | c :: rest => rePat.isPrefixOf (c :: rest) || containsRe rest

/-- Embeds account.replace of the at sign with the four characters _at_
(add_calendar_event.py line 29): single-character pattern, per-character scan. -/
def at_replace_aux : List Char → List Char
  | [] => []
  | c :: rest =>
    if c = '@' then '_' :: 'a' :: 't' :: '_' :: at_replace_aux rest
    else c :: at_replace_aux rest

/-- Rendering of a possibly-absent value inside a Python f-string: the value
None prints as the four letters None. -/
def opt_str : Option String → String
  | none => "None"
  | some s => s

/-- Python dict assignment d[k] = v on an insertion-ordered association list:
replace in place when the key exists, append otherwise. -/
def dictSet {α : Type} : List (String × α) → String → α → List (String × α)
  | [], k, v => [(k, v)]
  | (k1, v1) :: rest, k, v =>
    if k1 = k then (k, v) :: rest else (k1, v1) :: dictSet rest k v

/-- Python dict lookup d.get(k): the value stored under the key, if any. -/
def dictGet? {α : Type} : List (String × α) → String → Option α
  | [], _ => none
  | (k1, v1) :: rest, k => if k1 = k then some v1 else dictGet? rest k

/-- Python dict lookup with a default, d.get(k, dflt). -/
def dict_getD (m : List (String × String)) (k dflt : String) : String :=
  (dictGet? m k).getD dflt

/-- One remote API call issued during a run, with the payload data the claims
talk about (the outgoing subject and derived HTML body, the thread linkage,
the target calendar, color and title of an event insert). -/
inductive RemoteCall where
  | get_profile
  | msg_send (subject : String) (html : String) (threadId : Option String)
  | draft_create (subject : String) (html : String) (threadId : Option String)
  | thread_get (id : String)
  | msg_list (q : String)
  | msg_get (id : String)
  | event_insert (calendarId : String) (summary : String) (colorId : Option String)
deriving Repr, DecidableEq

/-- Whether a remote call is a mutating send or create call (message send,
draft create, calendar event insert), as opposed to a read. -/
def is_send_or_create : RemoteCall → Bool
  | .msg_send _ _ _ => true
  | .draft_create _ _ _ => true
  | .event_insert _ _ _ => true
  | _ => false

/-- True when a call log contains no send or create call. -/
def no_mutating (log : List RemoteCall) : Bool :=
  log.all fun c => !(is_send_or_create c)

/-- The remote Gmail service as the tools see it.  Each field is the outcome
of the corresponding API call: `Except.error e` means the call raises an
exception whose str() is e. -/
structure GmailService where
  profile_email : Except String (Option String)
  msg_send : Except String (Option String × Option String)
  draft_create : Except String (Option String)
  thread_messages : String → Except String (List String)

/-- The uniform result dict every tool returns.  A field left at its default
(`none` / `false`) models a key absent from the Python dict. -/
structure ToolResult where
  success : Bool := false
  error : Option String := none
  preview_only : Bool := false
  message_id : Option String := none
  thread_id : Option String := none
  draft_id : Option String := none
  sender : Option String := none
  to_addr : Option String := none
  subject : Option String := none
  is_draft : Bool := false
  event_id : Option String := none
  calendar_id : Option String := none
  title : Option String := none
  html_link : Option String := none
  status : Option String := none
  client : Option String := none
  poc : Option String := none
deriving Repr, DecidableEq

/-- The dict returned when the operator declines the confirmation prompt
(send_email.py lines 121-125 and 235-239, notify_designer.py lines 134-138). -/
def cancel_result : ToolResult :=
  { success := false, error := some "User cancelled", preview_only := true }

/-- The affirmative answers the confirmation gate accepts,
send_email.py lines 120 and 234 and notify_designer.py line 133. -/
def confirm_tokens : List String := ["yes", "y", "send", "draft"]

/-- Continuation of send_email after the sender address is resolved
(send_email.py lines 114-174): confirmation gate, MIME assembly, then the
draft-create or send call.  `log` holds the remote calls made so far. -/
def send_email_with_sender (svc : GmailService) (to_addr subject body : String)
    (cc bcc : Option String) (auto_confirm : Bool) (draft : Bool)
    (thread_id : Option String) (stdin_line sender : String)
    (log : List RemoteCall) : ToolResult × List RemoteCall :=
  if auto_confirm = false ∧ py_lower (py_strip stdin_line) ∉ confirm_tokens then
    (cancel_result, log)
  else
    let html := html_render body
    if draft then
      match svc.draft_create with
      | .error e => ({ success := false, error := some e },
                     log ++ [.draft_create subject html thread_id])
      | .ok did => ({ success := true, draft_id := did, sender := some sender,
                      to_addr := some to_addr, subject := some subject, is_draft := true },
                    log ++ [.draft_create subject html thread_id])
    else
      match svc.msg_send with
      | .error e => ({ success := false, error := some e },
                     log ++ [.msg_send subject html thread_id])
      | .ok (mid, tid) => ({ success := true, message_id := mid, thread_id := tid,
                             sender := some sender, to_addr := some to_addr,
                             subject := some subject },
                           log ++ [.msg_send subject html thread_id])

/-- send_email of src/send_email.py (lines 93-180).  `creds` is whether
load_credentials found a token; any exception inside the try block is already
folded into the `Except.error` branches, which the except clause at lines
176-180 turns into a failure dict carrying str(e). -/
def send_email (account : String) (creds : Bool) (svc : GmailService)
    (to_addr subject body : String) (cc bcc : Option String) (auto_confirm : Bool)
    (from_address : Option String) (draft : Bool) (thread_id : Option String)
    (stdin_line : String) : ToolResult × List RemoteCall :=
  if creds = false then
    ({ success := false,
       error := some ("No credentials found for " ++ account ++ ". Run OAuth setup first.") },
     [])
  else
    match from_address with
    | some s =>
      send_email_with_sender svc to_addr subject body cc bcc auto_confirm draft
        thread_id stdin_line s []
    | none =>
      match svc.profile_email with
      | .error e => ({ success := false, error := some e }, [.get_profile])
      | .ok pe =>
        send_email_with_sender svc to_addr subject body cc bcc auto_confirm draft
          thread_id stdin_line (pe.getD account) [.get_profile]

/-- The subject line send_reply puts on the outgoing MIME message,
send_email.py line 212: the literal Re-colon-space prepended to the result of
subject.replace of the pattern by the empty string. -/
def reply_subject_of (subject : String) : String := "Re: " ++ strip_re subject

/-- Continuation of send_reply after the sender address is resolved
(send_email.py lines 204-267): thread lookup for the reference headers, MIME
assembly, confirmation gate, then the draft-create or send call. -/
def send_reply_with_sender (svc : GmailService) (thread_id to_addr subject body : String)
    (cc : Option String) (auto_confirm draft : Bool) (stdin_line sender : String)
    (log : List RemoteCall) : ToolResult × List RemoteCall :=
  match svc.thread_messages thread_id with
  | .error e => ({ success := false, error := some e }, log ++ [.thread_get thread_id])
  | .ok msgs =>
    match msgs.getLast? with
    | none =>
      -- thread["messages"][-1] on an empty message list raises IndexError,
      -- which the enclosing except block converts like any other exception
      ({ success := false, error := some "list index out of range" },
       log ++ [.thread_get thread_id])
    | some _original_msg_id =>
      let rsubject := reply_subject_of subject
      let html := html_render body
      if auto_confirm = false ∧ py_lower (py_strip stdin_line) ∉ confirm_tokens then
        (cancel_result, log ++ [.thread_get thread_id])
      else
        if draft then
          match svc.draft_create with
          | .error e => ({ success := false, error := some e },
                         log ++ [.thread_get thread_id,
                                 .draft_create rsubject html (some thread_id)])
          | .ok did => ({ success := true, draft_id := did,
                          thread_id := some thread_id, sender := some sender,
                          to_addr := some to_addr, subject := some subject, is_draft := true },
                        log ++ [.thread_get thread_id,
                                .draft_create rsubject html (some thread_id)])
        else
          match svc.msg_send with
          | .error e => ({ success := false, error := some e },
                         log ++ [.thread_get thread_id,
                                 .msg_send rsubject html (some thread_id)])
          | .ok (mid, tid) => ({ success := true, message_id := mid, thread_id := tid,
                                 sender := some sender, to_addr := some to_addr,
                                 subject := some subject },
                               log ++ [.thread_get thread_id,
                                       .msg_send rsubject html (some thread_id)])

/-- send_reply of src/send_email.py (lines 183-272). -/
def send_reply (account : String) (creds : Bool) (svc : GmailService)
    (thread_id to_addr subject body : String) (cc : Option String)
    (auto_confirm : Bool) (from_address : Option String) (draft : Bool)
    (stdin_line : String) : ToolResult × List RemoteCall :=
  if creds = false then
    ({ success := false, error := some ("No credentials found for " ++ account) }, [])
  else
    match from_address with
    | some s =>
      send_reply_with_sender svc thread_id to_addr subject body cc auto_confirm draft
        stdin_line s []
    | none =>
      match svc.profile_email with
      | .error e => ({ success := false, error := some e }, [.get_profile])
      | .ok pe =>
        send_reply_with_sender svc thread_id to_addr subject body cc auto_confirm draft
          stdin_line (pe.getD account) [.get_profile]

/-- The lines main of send_email.py prints for a result when --json is not
given (lines 337-350): success block, else the preview-only line, else the
failure line. -/
def render_result (r : ToolResult) : List String :=
  if r.success then
    (if r.is_draft then
      ["✅ Draft saved successfully!", "   Draft ID: " ++ opt_str r.draft_id]
    else
      ["✅ Email sent successfully!", "   Message ID: " ++ opt_str r.message_id])
    ++ ["   From: " ++ opt_str r.sender, "   To: " ++ opt_str r.to_addr,
        "   Subject: " ++ opt_str r.subject]
  else if r.preview_only then
    ["📋 Preview shown. Email not saved/sent."]
  else
    ["❌ Failed: " ++ opt_str r.error]

/-- Outcome of running main of send_email.py: either the early
usage error with its exit code (lines 305-307), or the result and call log of
the dispatched operation. -/
inductive CliOutcome where
  | usage_error (msg : String) (exit_code : Nat)
  | ran (r : ToolResult) (log : List RemoteCall)
deriving Repr

/-- Dispatch logic of main in src/send_email.py (lines 303-331): a reply-to
flag without a reply-subject flag is rejected before any credential load or
remote call; otherwise send_reply (with the caller-given reply subject) or
send_email runs. -/
def main_dispatch (account : String) (creds : Bool) (svc : GmailService)
    (to_addr subject body : String) (cc bcc : Option String)
    (from_address reply_to reply_subject : Option String)
    (draft auto_yes : Bool) (stdin_line : String) : CliOutcome :=
  match reply_to with
  | some tid =>
    match reply_subject with
    | none => .usage_error "Error: --reply-subject required when using --reply-to" 1
    | some rsubj =>
      let p := send_reply account creds svc tid to_addr rsubj body cc auto_yes
        from_address draft stdin_line
      .ran p.1 p.2
  | none =>
    let p := send_email account creds svc to_addr subject body cc bcc auto_yes
      from_address draft reply_to stdin_line
    .ran p.1 p.2

/-- Fixed designer address, notify_designer.py line 32. -/
def DESIGNER_EMAIL : String := "designer@livemoments.com.sg"

/-- Fixed sender address, notify_designer.py line 33. -/
def FROM_ADDRESS : String := "hello@livemoments.com.sg"

/-- build_designer_email of src/notify_designer.py (lines 71-91). -/
def build_designer_email (client poc poc_email date time venue event_type : String) :
    String × String :=
  ("New Booking - " ++ client ++ " - " ++ date,
   "Hi Ting Ting,\n\nWe have a new instant print booking confirmed.\n\nPlease liaise directly with the client for the overlay design:\n\nClient: "
     ++ poc ++ "\nEmail: " ++ poc_email ++ "\nEvent Date: " ++ date
     ++ "\nStart Time: " ++ time ++ "\nVenue: " ++ venue ++ "\nEvent Type: "
     ++ event_type ++ "\n\nThank you!")

/-- send_designer_notification of src/notify_designer.py (lines 108-189).
The sender is the fixed FROM_ADDRESS constant, so no profile lookup happens. -/
def send_designer_notification (account : String) (creds : Bool)
    (svc : GmailService) (client poc poc_email date time venue event_type : String)
    (auto_confirm draft : Bool) (stdin_line : String) :
    ToolResult × List RemoteCall :=
  if creds = false then
    ({ success := false,
       error := some ("No credentials found for " ++ account ++ ". Run OAuth setup first.") },
     [])
  else
    let sb := build_designer_email client poc poc_email date time venue event_type
    let subject := sb.1
    let body := sb.2
    if auto_confirm = false ∧ py_lower (py_strip stdin_line) ∉ confirm_tokens then
      (cancel_result, [])
    else
      let html := html_render body
      if draft then
        match svc.draft_create with
        | .error e => ({ success := false, error := some e },
                       [.draft_create subject html none])
        | .ok did => ({ success := true, draft_id := did,
                        sender := some FROM_ADDRESS, to_addr := some DESIGNER_EMAIL,
                        subject := some subject, is_draft := true,
                        client := some client, poc := some poc },
                      [.draft_create subject html none])
      else
        match svc.msg_send with
        | .error e => ({ success := false, error := some e },
                       [.msg_send subject html none])
        | .ok (mid, tid) => ({ success := true, message_id := mid, thread_id := tid,
                               sender := some FROM_ADDRESS, to_addr := some DESIGNER_EMAIL,
                               subject := some subject, client := some client,
                               poc := some poc },
                             [.msg_send subject html none])

/-- Administration (purple, TBC) calendar id, add_calendar_event.py line 20. -/
def CALENDAR_ADMIN : String := "jml0dbb0k0pq0qfdlhdo89oql0@group.calendar.google.com"

/-- Main (confirmed) calendar id, add_calendar_event.py line 21. -/
def CALENDAR_MAIN : String := "livemomentssg@gmail.com"

/-- Calendar routing of add_event, add_calendar_event.py lines 69-76: the
triple (calendar_id, color_id, title tag) chosen from the status.  The
branch condition is status.upper() equal to the TBC literal; every other
status takes the else branch. -/
def event_routing (status : String) : String × Option String × String :=
  if py_upper status = "TBC" then (CALENDAR_ADMIN, some "3", "TBC - ")
  else (CALENDAR_MAIN, none, "")

/-- The title expression of add_calendar_event.py line 79.  Its f-string
interpolates the name POC with a leading blank inside the braces; POC is not
bound anywhere in the module (the parameter is lowercase poc), so evaluating
the expression raises NameError with exactly this message, before the title
or any later statement of the try block is produced.  The arguments record
what the expression would have consumed. -/
def add_event_title (title_tag company event_type : String) : Except String String :=
  Except.error "name 'POC' is not defined"

/-- The remote Calendar service: outcome of the events insert call
(event id and htmlLink on success, str(e) of the raised exception on error). -/
structure CalendarService where
  insert_event : Except String (Option String × Option String)

/-- add_event of src/add_calendar_event.py (lines 57-138).  `creds` is
whether load_credentials returned a token.  The title evaluation raises (see
`add_event_title`), so control always reaches the except block of lines
137-138 with no remote call issued; the ok branch is written out for the
record but is unreachable, and the date and time handling of lines 93-98
(inside it) is elided for that reason. -/
def add_event (creds : Bool) (svc : CalendarService)
    (company poc event_type date start_time end_time location email_id : String)
    (description : Option String) (status : String) :
    ToolResult × List RemoteCall :=
  if creds = false then
    ({ success := false, error := some "No credentials found" }, [])
  else
    let routing := event_routing status
    let calendar_id := routing.1
    let color_id := routing.2.1
    let title_tag := routing.2.2
    match add_event_title title_tag company event_type with
    | .error e => ({ success := false, error := some e }, [])
    | .ok title =>
      match svc.insert_event with
      | .error e => ({ success := false, error := some e },
                     [.event_insert calendar_id title color_id])
      | .ok (eid, link) => ({ success := true, event_id := eid,
                              calendar_id := some calendar_id, title := some title,
                              html_link := link, status := some status },
                            [.event_insert calendar_id title color_id])

/-- The token path get_credentials_path of add_calendar_event.py builds
(lines 28-29): base directory under the home directory, file named by the
account with the at sign replaced by _at_, suffix .token. -/
def cal_token_path (home account : String) : String :=
  home ++ "/.nanobot/credentials/gmail/" ++ String.mk (at_replace_aux account.data)
    ++ ".token"

/-- get_credentials_path of src/add_calendar_event.py (lines 26-30): the
token path when that file exists on disk, None otherwise.  `fs` is the
filesystem, as the set of paths that exist. -/
def cal_get_credentials_path (fs : String → Bool) (home account : String) :
    Option String :=
  let token_file := cal_token_path home account
  if fs token_file then some token_file else none

/-- load_credentials of src/add_calendar_event.py (lines 33-54), returning
the credentials (abstracted by `load_pickle`, which covers the unpickling and
refresh of lines 43-49 and reports an exception as str(e)) together with the
lines the function prints.  In the missing-file branch creds_path is None, so
the second print renders the literal text None after the Expected: label. -/
def cal_load_credentials (fs : String → Bool) (home account : String)
    (load_pickle : String → Except String Bool) : Option Bool × List String :=
  match cal_get_credentials_path fs home account with
  | none =>
    (none, ["Error: No credentials found for " ++ account, "Expected: None"])
  | some creds_path =>
    match load_pickle creds_path with
    | .error e => (none, ["Error loading credentials: " ++ e])
    | .ok c => (some c, [])

/-- A fetched message as capture_email consumes it: its raw header list, the
already base64-decoded body text (decode_body output), and the snippet. -/
structure CaptureMsg where
  headers : List (String × String)
  body : String
  snippet : String
deriving Repr, DecidableEq

/-- The remote service of capture_email: the messages list call (pairs of
message id and thread id) and the per-message get call.  An error value is an
exception the call raises. -/
structure CaptureService where
  list_messages : String → Except String (List (String × String))
  get_message : String → Except String CaptureMsg

/-- The captured-message record capture_email builds per message
(capture_email.py lines 131-144); from_addr carries the dict key "from". -/
structure EmailData where
  captured_at : String
  message_id : String
  thread_id : String
  from_addr : String
  to_addr : String
  cc : String
  bcc : String
  subject : String
  date : String
  body : String
  search_query : String
  snippet : String
deriving Repr, DecidableEq

/-- The header names extract_headers keeps, capture_email.py line 95. -/
def header_keys : List String := ["from", "to", "cc", "bcc", "subject", "date", "message-id"]

/-- extract_headers of src/capture_email.py (lines 89-97): fold the raw
header list into a dict, keeping only the known names, lowercased. -/
def extract_headers (headers : List (String × String)) : List (String × String) :=
  headers.foldl
    (fun result h =>
      let name := py_lower h.1
      if name ∈ header_keys then dictSet result name h.2 else result)
    []

/-- The email_data dict built for one message, capture_email.py lines
131-144.  The body is sliced to its first 5000 characters (an empty decoded
body stores the empty string through the falsy branch of the conditional). -/
def build_email_data (now msg_id thread_id : String) (m : CaptureMsg)
    (query : String) : EmailData :=
  let headers := extract_headers m.headers
  { captured_at := now
    message_id := msg_id
    thread_id := thread_id
    from_addr := dict_getD headers "from" ""
    to_addr := dict_getD headers "to" ""
    cc := dict_getD headers "cc" ""
    bcc := dict_getD headers "bcc" ""
    subject := dict_getD headers "subject" ""
    date := dict_getD headers "date" ""
    body := if m.body = "" then "" else py_slice 5000 m.body
    search_query := query
    snippet := m.snippet }

/-- The per-message loop of capture_email (lines 115-146): a get call per
listed message, each fallible with no handler, so the first exception
propagates. -/
def capture_loop (svc : CaptureService) (now query : String) :
    List (String × String) → Except String (List EmailData × List RemoteCall)
  | [] => .ok ([], [])
  | (msg_id, thread_id) :: rest =>
    match svc.get_message msg_id with
    | .error e => .error e
    | .ok m =>
      match capture_loop svc now query rest with
      | .error e => .error e
      | .ok (ds, log) =>
        .ok (build_email_data now msg_id thread_id m query :: ds,
             .msg_get msg_id :: log)

/-- The cache key of a captured record, capture_email.py line 160: thread id,
an underscore, and the first eight characters of the message id. -/
def cache_key (e : EmailData) : String :=
  e.thread_id ++ "_" ++ py_slice 8 e.message_id

/-- The save loop of capture_email.py lines 159-161: each captured record is
assigned into the loaded cache dict under its key. -/
def save_captured (cache : List (String × EmailData)) (captured : List EmailData) :
    List (String × EmailData) :=
  captured.foldl (fun m e => dictSet m (cache_key e) e) cache

/-- capture_email of src/capture_email.py (lines 100-191).  `cache_file` is
the parsed content of the on-disk cache (`none` for a missing or corrupt
file, which lines 151-156 treat as an empty dict).  The value is the captured
records (None when the search matched nothing), the cache content written
back (None when nothing is written), and the remote calls made.  There is no
try/except around the list and get calls, so the whole embedding is
Except-valued: an error value is an exception leaving capture_email (and the
process, since main does not catch either). -/
def capture_email (svc : CaptureService) (now query : String) (save : Bool)
    (cache_file : Option (List (String × EmailData))) :
    Except String (Option (List EmailData) × Option (List (String × EmailData)) × List RemoteCall) :=
  match svc.list_messages query with
  | .error e => .error e
  | .ok messages =>
    if messages = [] then .ok (none, none, [.msg_list query])
    else
      match capture_loop svc now query messages with
      | .error e => .error e
      | .ok (captured, log) =>
        let written := if save then some (save_captured (cache_file.getD []) captured)
          else none
        .ok (some captured, written, .msg_list query :: log)

/-- Spec-side rendering of one body character for the HTML derivation claim:
a newline becomes the four-character br marker, every other character is kept
with no change. -/
def spec_html_char (c : Char) : List Char :=
  if c = '\n' then ['<', 'b', 'r', '>'] else [c]

/-- Spec-side reading of the reply-subject claim: strip one leading
occurrence of the Re marker from the subject, if present, then prepend the
single marker. -/
def claim_reply_subject (subject : String) : String :=
  "Re: " ++ (if rePat.isPrefixOf subject.data then py_drop 4 subject else subject)

/-- A concrete captured record used to witness the cache merge properties. -/
def sample_email : EmailData :=
  { captured_at := "2026-01-01T00:00:00"
    message_id := "18c2a4b7d9e0f123"
    thread_id := "18c2a4b7d9e0f100"
    from_addr := "a@b.c"
    to_addr := "d@e.f"
    cc := ""
    bcc := ""
    subject := "Quotation"
    date := "Mon, 1 Jan 2026"
    body := "Hello"
    search_query := "from:a"
    snippet := "Hello" }

/-! ## Helper lemmas -/

/-- Concatenating strings concatenates their character lists. -/
theorem data_append (a b : String) : (a ++ b).data = a.data ++ b.data := by
  cases a; cases b; rfl

/-- The replace scan leaves a list without any occurrence of the pattern
unchanged. -/
theorem stripReAux_eq_self (l : List Char) (h : containsRe l = false) :
    stripReAux l = l := by
  induction l using stripReAux.induct with
  | case1 rest ih =>
    exfalso
    simp [containsRe, rePat, List.isPrefixOf] at h
  | case2 c rest ih h2 =>
    have hrest : containsRe rest = false := by
      simp [containsRe, Bool.or_eq_false_iff] at h
      exact h.2
    rw [stripReAux.eq_2 c rest ih, h2 hrest]
  | case3 => rfl

/-- The replace scan consumes a leading occurrence of the pattern and
continues on the remainder. -/
theorem stripReAux_re_head (l : List Char) :
    stripReAux (rePat ++ l) = stripReAux l := by
  simp [rePat, stripReAux.eq_1]

/-- Looking up the key just assigned returns the assigned value. -/
theorem dictGet?_dictSet_self {α : Type} (m : List (String × α)) (k : String) (v : α) :
    dictGet? (dictSet m k v) k = some v := by
  induction m with
  | nil => simp [dictSet, dictGet?]
  | cons p rest ih =>
    obtain ⟨k1, v1⟩ := p
    by_cases h : k1 = k
    · simp [dictSet, dictGet?, h]
    · simp [dictSet, dictGet?, h, ih]

/-- Assigning a key leaves every other lookup unchanged. -/
theorem dictGet?_dictSet_ne {α : Type} (m : List (String × α)) (k k1 : String)
    (v : α) (h : k1 ≠ k) : dictGet? (dictSet m k v) k1 = dictGet? m k1 := by
  induction m with
  | nil => simp [dictSet, dictGet?, Ne.symm h]
  | cons p rest ih =>
    obtain ⟨k2, v2⟩ := p
    by_cases h2 : k2 = k
    · subst h2
      simp [dictSet, dictGet?, Ne.symm h]
    · simp only [dictSet, if_neg h2]
      by_cases h3 : k2 = k1
      · simp [dictGet?, h3]
      · simp [dictGet?, h3, ih]

/-- Assigning the same key twice keeps a single entry: the second assignment
overwrites the first. -/
theorem dictSet_dictSet {α : Type} (m : List (String × α)) (k : String) (v w : α) :
    dictSet (dictSet m k v) k w = dictSet m k w := by
  induction m with
  | nil => simp [dictSet]
  | cons p rest ih =>
    obtain ⟨k1, v1⟩ := p
    by_cases h : k1 = k
    · simp [dictSet, h]
    · simp [dictSet, h, ih]

/-- The per-character newline scan agrees with mapping each character to its
spec-side rendering. -/
theorem html_render_aux_eq_flatMap (l : List Char) :
    html_render_aux l = l.flatMap spec_html_char := by
  induction l with
  | nil => rfl
  | cons c t ih =>
    by_cases hc : c = '\n'
    · subst hc
      simp [html_render_aux, spec_html_char, List.flatMap_cons, ih]
    · simp [html_render_aux, spec_html_char, List.flatMap_cons, hc, ih]

/-! ## Claim theorems -/

/-- C1: the claimed scenario (status TBC, company Acme, poc Jane, type EVENT,
valid date, time, location and credentials) does not create an event titled
"TBC - Acme - Jane (EVENT)" on the administration calendar: the title
expression of line 79 raises NameError because it references the undefined
name POC, the except block turns that into a failure dict carrying the
NameError text, and no remote insert call is ever issued (empty call log).
The routing triple of lines 69-76 is also recorded: it sends only a status
whose uppercase form is TBC to the administration calendar, while any other
status (PENDING as much as CONFIRMED) selects the main calendar with no
color and no tag. -/
theorem add_event_name_error_bug :
    add_event true ⟨Except.ok (some "evt1", some "https://cal/link")⟩
        "Acme" "Jane" "EVENT" "2026-05-21" "09:00" "20:30" "Conrad Singapore"
        "abc123" none "TBC"
      = ({ success := false, error := some "name 'POC' is not defined" }, [])
    ∧ event_routing "TBC" = (CALENDAR_ADMIN, some "3", "TBC - ")
    ∧ event_routing "CONFIRMED" = (CALENDAR_MAIN, none, "")
    ∧ event_routing "PENDING" = (CALENDAR_MAIN, none, "") := by
  refine ⟨rfl, by decide, by decide, by decide⟩

/-- C2 counterexample: the reply subject is not the claimed
strip-one-leading-marker-then-prepend normalization.  On the subject
"Fwd: Re: Hello" the code removes the interior occurrence the claim says is
left unchanged, and on "Re: Re: Hi" it removes both occurrences rather than
one.  The last conjunct shows the subject on the outgoing send call of a
send_reply run. -/
theorem reply_subject_claim_counterexample :
    reply_subject_of "Fwd: Re: Hello" = "Re: Fwd: Hello"
    ∧ claim_reply_subject "Fwd: Re: Hello" = "Re: Fwd: Re: Hello"
    ∧ reply_subject_of "Fwd: Re: Hello" ≠ claim_reply_subject "Fwd: Re: Hello"
    ∧ reply_subject_of "Re: Re: Hi" = "Re: Hi"
    ∧ claim_reply_subject "Re: Re: Hi" = "Re: Re: Hi"
    ∧ (send_reply "livemomentssg@gmail.com" true
          ⟨Except.ok none, Except.ok (none, none), Except.ok none,
           fun _ => Except.ok ["m1"]⟩
          "t1" "x@y.z" "Fwd: Re: Hello" "B" none true (some "s@y.z") false "").2
        = [.thread_get "t1", .msg_send "Re: Fwd: Hello" "B" (some "t1")] := by
  refine ⟨by decide, by decide, by decide, by decide, by decide, rfl⟩

/-- C2 amended: the outgoing reply subject is the Re marker prepended to the
subject with every occurrence of the marker removed in one left-to-right
scan, not only a leading one.  In particular a subject in which the marker
does not occur is reproduced unchanged after the single prepended marker, and
a subject consisting of one leading marker before such a text normalizes to
that same single-marker form. -/
theorem reply_subject_strips_all_occurrences (subject : String)
    (h : containsRe subject.data = false) :
    reply_subject_of subject = "Re: " ++ subject
    ∧ reply_subject_of ("Re: " ++ subject) = "Re: " ++ subject := by
  have hs : strip_re subject = subject := by
    show String.mk (stripReAux subject.data) = subject
    rw [stripReAux_eq_self subject.data h]
  constructor
  · show "Re: " ++ strip_re subject = "Re: " ++ subject
    rw [hs]
  · show "Re: " ++ strip_re ("Re: " ++ subject) = "Re: " ++ subject
    have hd : ("Re: " ++ subject).data = rePat ++ subject.data := by
      rw [data_append]; rfl
    show "Re: " ++ String.mk (stripReAux ("Re: " ++ subject).data) = "Re: " ++ subject
    rw [hd, stripReAux_re_head, stripReAux_eq_self subject.data h]

/-- C2 witness: the amended normalization at the subject "Quotation request". -/
theorem reply_subject_strips_all_occurrences_witness :
    containsRe ("Quotation request" : String).data = false
    ∧ (reply_subject_of "Quotation request" = "Re: " ++ "Quotation request"
       ∧ reply_subject_of ("Re: " ++ "Quotation request") = "Re: " ++ "Quotation request") :=
  ⟨by decide, reply_subject_strips_all_occurrences "Quotation request" (by decide)⟩

/-- C4: for an account with no stored token file, load_credentials of the
calendar tool fails without raising but prints "Expected: None" instead of
naming the expected path: get_credentials_path already collapsed the missing
path to None before the message is formatted.  The token path the code was
meant to print is the third conjunct, and the last conjunct shows the
send_email tool likewise failing with a message naming only the account,
not the expected location. -/
theorem load_credentials_missing_path_bug :
    cal_load_credentials (fun _ => false) "/home/user" "livemomentssg@gmail.com"
        (fun _ => Except.error "unused")
      = (none, ["Error: No credentials found for livemomentssg@gmail.com",
                "Expected: None"])
    ∧ cal_token_path "/home/user" "livemomentssg@gmail.com"
      = "/home/user/.nanobot/credentials/gmail/livemomentssg_at_gmail.com.token"
    ∧ ("Expected: None" : String)
      ≠ "Expected: " ++ cal_token_path "/home/user" "livemomentssg@gmail.com"
    ∧ (send_email "livemomentssg@gmail.com" false
          ⟨Except.ok none, Except.error "unused", Except.error "unused",
           fun _ => Except.error "unused"⟩
          "a@b.c" "S" "B" none none true none false none "").1.error
      = some "No credentials found for livemomentssg@gmail.com. Run OAuth setup first." := by
  refine ⟨rfl, by decide, by decide, rfl⟩

/-- C7: the HTML body every message-building tool derives (html_render, used
by send_email, send_reply and send_designer_notification) equals the plain
text with each newline replaced by the br marker and every other character
kept unchanged. -/
theorem html_body_newline_rendering (body : String) :
    html_render body = String.mk (body.data.flatMap spec_html_char) := by
  show String.mk (html_render_aux body.data) = String.mk (body.data.flatMap spec_html_char)
  rw [html_render_aux_eq_flatMap]

/-- C10: the body stored in a captured-message record is the decoded body cut
to its first 5000 characters, hence never longer than 5000 characters. -/
theorem captured_body_at_most_5000 (now msg_id thread_tid query : String)
    (m : CaptureMsg) :
    (build_email_data now msg_id thread_tid m query).body = py_slice 5000 m.body
    ∧ (build_email_data now msg_id thread_tid m query).body.length ≤ 5000 := by
  have hb : (build_email_data now msg_id thread_tid m query).body
      = py_slice 5000 m.body := by
    show (if m.body = "" then "" else py_slice 5000 m.body) = py_slice 5000 m.body
    by_cases h : m.body = ""
    · rw [if_pos h, h]; rfl
    · rw [if_neg h]
  refine ⟨hb, ?_⟩
  rw [hb]
  show (m.body.data.take 5000).length ≤ 5000
  rw [List.length_take]
  exact Nat.min_le_left _ _

/-- C8: a captured record saved to the cache sits under the key made of its
thread id, an underscore and the first eight characters of its message id;
looking that key up in the merged cache returns every field of the record
unchanged; re-saving the same record under the same key overwrites the entry
rather than duplicating it; and every other key keeps the value it had before
the merge. -/
theorem cache_merge_round_trip (m : List (String × EmailData)) (e : EmailData)
    (k : String) (h : k ≠ cache_key e) :
    cache_key e = e.thread_id ++ "_" ++ py_slice 8 e.message_id
    ∧ dictGet? (save_captured m [e]) (cache_key e) = some e
    ∧ save_captured (save_captured m [e]) [e] = save_captured m [e]
    ∧ dictGet? (save_captured m [e]) k = dictGet? m k := by
  refine ⟨rfl, ?_, ?_, ?_⟩
  · exact dictGet?_dictSet_self m (cache_key e) e
  · exact dictSet_dictSet m (cache_key e) e e
  · exact dictGet?_dictSet_ne m (cache_key e) k e h

/-- C8 witness: the merge properties at a concrete cache and record. -/
theorem cache_merge_round_trip_witness :
    ("other" ≠ cache_key sample_email)
    ∧ (cache_key sample_email
        = sample_email.thread_id ++ "_" ++ py_slice 8 sample_email.message_id
       ∧ dictGet? (save_captured [] [sample_email]) (cache_key sample_email)
        = some sample_email
       ∧ save_captured (save_captured [] [sample_email]) [sample_email]
        = save_captured [] [sample_email]
       ∧ dictGet? (save_captured [] [sample_email]) "other" = dictGet? [] "other") :=
  ⟨by decide, cache_merge_round_trip [] sample_email "other" (by decide)⟩

/-- C3 counterexample: an exception raised by the capture tool remote calls
is not mapped into a failure result.  A failing messages list call, and a
failing per-message get call, each leave capture_email as an uncaught
exception (an error value at the function boundary, which main does not catch
either), instead of a success-false dict. -/
theorem capture_exception_propagates :
    capture_email
        ⟨fun _ => Except.error "HttpError 503 backend error",
         fun _ => Except.error "HttpError 503 backend error"⟩
        "2026-01-01T00:00:00" "in:inbox is:unread" true (some [])
      = Except.error "HttpError 503 backend error"
    ∧ capture_email
        ⟨fun _ => Except.ok [("m1", "t1")],
         fun _ => Except.error "HttpError 404 not found"⟩
        "2026-01-01T00:00:00" "in:inbox is:unread" false none
      = Except.error "HttpError 404 not found" := ⟨rfl, rfl⟩

/-- C3 amended: the send, reply and designer-notification tools map every
exception raised by a remote call (profile lookup, thread lookup, draft
create, message send) into a failure dict whose error field is the exception
text verbatim, and the calendar tool maps the NameError its own title
expression raises the same way; only the capture tool lets remote-call
exceptions propagate uncaught (see the counterexample). -/
theorem remote_exception_mapped_verbatim
    (e account to_addr subject body thread_tid client poc poc_email date time venue event_type company loc : String) :
    (send_email account true ⟨Except.ok none, Except.error e, Except.error e, fun _ => Except.error e⟩
        to_addr subject body none none true (some "s@x.y") false none "").1
      = { success := false, error := some e }
    ∧ (send_email account true ⟨Except.ok none, Except.error e, Except.error e, fun _ => Except.error e⟩
        to_addr subject body none none true (some "s@x.y") true none "").1
      = { success := false, error := some e }
    ∧ (send_email account true ⟨Except.error e, Except.ok (none, none), Except.ok none, fun _ => Except.ok ["m1"]⟩
        to_addr subject body none none true none false none "").1
      = { success := false, error := some e }
    ∧ (send_reply account true ⟨Except.ok none, Except.ok (none, none), Except.ok none, fun _ => Except.error e⟩
        thread_tid to_addr subject body none true (some "s@x.y") false "").1
      = { success := false, error := some e }
    ∧ (send_reply account true ⟨Except.ok none, Except.error e, Except.ok none, fun _ => Except.ok ["m1"]⟩
        thread_tid to_addr subject body none true (some "s@x.y") false "").1
      = { success := false, error := some e }
    ∧ (send_designer_notification account true ⟨Except.ok none, Except.error e, Except.error e, fun _ => Except.error e⟩
        client poc poc_email date time venue event_type true false "").1
      = { success := false, error := some e }
    ∧ (send_designer_notification account true ⟨Except.ok none, Except.error e, Except.error e, fun _ => Except.error e⟩
        client poc poc_email date time venue event_type true true "").1
      = { success := false, error := some e }
    ∧ (add_event true ⟨Except.error e⟩ company poc event_type date time time loc "id1" none "TBC").1
      = { success := false, error := some "name 'POC' is not defined" } :=
  ⟨rfl, rfl, rfl, rfl, rfl, rfl, rfl, rfl⟩

/-- C5 counterexample: asking for threaded reply behavior without an explicit
subject does not trigger a thread lookup to recover the original subject:
main rejects the flag combination outright with a usage error and exit code
1, before any credential load or remote call. -/
theorem reply_without_subject_usage_error :
    main_dispatch "livemomentssg@gmail.com" true
        ⟨Except.ok none, Except.ok (none, none), Except.ok none, fun _ => Except.ok ["m1"]⟩
        "a@b.c" "Subject" "Body" none none none (some "thread123") none false false ""
      = CliOutcome.usage_error "Error: --reply-subject required when using --reply-to" 1 := rfl

/-- C5 amended: when a reply subject is supplied, send_reply does perform one
thread lookup round-trip before the send call, but only to obtain the message
id for the reference headers: the outgoing subject derives from the
caller-supplied subject (the replace-then-prepend normalization), and the
echoed subject is the caller-supplied subject itself. -/
theorem reply_thread_lookup_uses_given_subject
    (account thread_tid to_addr subject body f m : String) (cc : Option String)
    (pe mid tid did : Option String) (ms : List String) :
    send_reply account true
        ⟨Except.ok pe, Except.ok (mid, tid), Except.ok did, fun _ => Except.ok (ms ++ [m])⟩
        thread_tid to_addr subject body cc true (some f) false ""
      = ({ success := true, message_id := mid, thread_id := tid, sender := some f,
           to_addr := some to_addr, subject := some subject },
         [.thread_get thread_tid,
          .msg_send ("Re: " ++ strip_re subject) (html_render body) (some thread_tid)]) := by
  simp [send_reply, send_reply_with_sender, reply_subject_of, List.getLast?_concat]

/-- C6: with auto-confirm off, an operator answer whose stripped lowercased
form is none of the accepted tokens (yes, y, send, draft) makes each gated
tool return the cancelled preview-only dict, and the call log of the run
contains no send, draft-create or event-insert call. -/
theorem gate_cancel_no_remote_send
    (account to_addr subject body stdin_line thread_tid client poc poc_email date time venue event_type m : String)
    (cc bcc from_address : Option String) (draft : Bool) (thread_id : Option String)
    (pe : Option String) (sres : Except String (Option String × Option String))
    (dres : Except String (Option String)) (ms : List String)
    (h : py_lower (py_strip stdin_line) ∉ confirm_tokens) :
    ((send_email account true ⟨Except.ok pe, sres, dres, fun _ => Except.ok (ms ++ [m])⟩
        to_addr subject body cc bcc false from_address draft thread_id stdin_line).1
       = cancel_result
     ∧ no_mutating (send_email account true ⟨Except.ok pe, sres, dres, fun _ => Except.ok (ms ++ [m])⟩
        to_addr subject body cc bcc false from_address draft thread_id stdin_line).2
       = true)
    ∧ ((send_reply account true ⟨Except.ok pe, sres, dres, fun _ => Except.ok (ms ++ [m])⟩
        thread_tid to_addr subject body cc false from_address draft stdin_line).1
       = cancel_result
     ∧ no_mutating (send_reply account true ⟨Except.ok pe, sres, dres, fun _ => Except.ok (ms ++ [m])⟩
        thread_tid to_addr subject body cc false from_address draft stdin_line).2
       = true)
    ∧ ((send_designer_notification account true ⟨Except.ok pe, sres, dres, fun _ => Except.ok (ms ++ [m])⟩
        client poc poc_email date time venue event_type false draft stdin_line).1
       = cancel_result
     ∧ no_mutating (send_designer_notification account true ⟨Except.ok pe, sres, dres, fun _ => Except.ok (ms ++ [m])⟩
        client poc poc_email date time venue event_type false draft stdin_line).2
       = true) := by
  refine ⟨⟨?_, ?_⟩, ⟨?_, ?_⟩, ⟨?_, ?_⟩⟩ <;> cases from_address <;>
    simp [send_email, send_email_with_sender, send_reply, send_reply_with_sender,
          send_designer_notification, no_mutating, is_send_or_create, h,
          List.getLast?_concat]

/-- C6 witness: the operator answer " No " cancels all three gated tools at
concrete inputs, with no send or create call in any log. -/
theorem gate_cancel_no_remote_send_witness :
    (py_lower (py_strip " No ") ∉ confirm_tokens)
    ∧ (((send_email "livemomentssg@gmail.com" true
          ⟨Except.ok (some "me@x.y"), Except.ok (some "mid", some "tid"),
           Except.ok (some "did"), fun _ => Except.ok ([] ++ ["m9"])⟩
          "a@b.c" "S" "B" none none false (some "s@x.y") false none " No ").1
         = cancel_result
       ∧ no_mutating (send_email "livemomentssg@gmail.com" true
          ⟨Except.ok (some "me@x.y"), Except.ok (some "mid", some "tid"),
           Except.ok (some "did"), fun _ => Except.ok ([] ++ ["m9"])⟩
          "a@b.c" "S" "B" none none false (some "s@x.y") false none " No ").2
         = true)
      ∧ (((send_reply "livemomentssg@gmail.com" true
          ⟨Except.ok (some "me@x.y"), Except.ok (some "mid", some "tid"),
           Except.ok (some "did"), fun _ => Except.ok ([] ++ ["m9"])⟩
          "t1" "a@b.c" "S" "B" none false (some "s@x.y") false " No ").1
         = cancel_result
       ∧ no_mutating (send_reply "livemomentssg@gmail.com" true
          ⟨Except.ok (some "me@x.y"), Except.ok (some "mid", some "tid"),
           Except.ok (some "did"), fun _ => Except.ok ([] ++ ["m9"])⟩
          "t1" "a@b.c" "S" "B" none false (some "s@x.y") false " No ").2
         = true)
      ∧ ((send_designer_notification "livemomentssg@gmail.com" true
          ⟨Except.ok (some "me@x.y"), Except.ok (some "mid", some "tid"),
           Except.ok (some "did"), fun _ => Except.ok ([] ++ ["m9"])⟩
          "Client" "Poc" "p@q.r" "24 May 2026" "6:00 PM" "Venue" "Wedding"
          false false " No ").1
         = cancel_result
       ∧ no_mutating (send_designer_notification "livemomentssg@gmail.com" true
          ⟨Except.ok (some "me@x.y"), Except.ok (some "mid", some "tid"),
           Except.ok (some "did"), fun _ => Except.ok ([] ++ ["m9"])⟩
          "Client" "Poc" "p@q.r" "24 May 2026" "6:00 PM" "Venue" "Wedding"
          false false " No ").2
         = true))) :=
  ⟨by decide,
   gate_cancel_no_remote_send "livemomentssg@gmail.com" "a@b.c" "S" "B" " No "
     "t1" "Client" "Poc" "p@q.r" "24 May 2026" "6:00 PM" "Venue" "Wedding" "m9"
     none none (some "s@x.y") false none (some "me@x.y")
     (Except.ok (some "mid", some "tid")) (Except.ok (some "did")) []
     (by decide)⟩

/-- The preview-only line differs from every possible failure line. -/
theorem preview_line_ne_failed_line (msg : String) :
    ("📋 Preview shown. Email not saved/sent." : String) ≠ "❌ Failed: " ++ msg := by
  intro heq
  have h2 : ("📋 Preview shown. Email not saved/sent." : String).data
      = ("❌ Failed: " ++ msg).data := congrArg String.data heq
  rw [data_append] at h2
  rw [show ("📋 Preview shown. Email not saved/sent." : String).data
      = '📋' :: (" Preview shown. Email not saved/sent." : String).data from rfl] at h2
  rw [show ("❌ Failed: " : String).data = '❌' :: (" Failed: " : String).data from rfl] at h2
  rw [List.cons_append] at h2
  simp at h2

/-- C9: operator cancellation produces the preview-only dict, a shape
distinguished from failure by the preview_only marker, and main renders it
through its own branch as the fixed preview line, which differs from every
failure line the error branch can print: cancellation is never reported as an
error outcome.  The last conjunct characterizes the failure branch for
contrast: a non-cancelled failure prints the Failed line. -/
theorem cancel_render_distinct
    (account to_addr subject body stdin_line : String)
    (cc bcc from_address : Option String) (draft : Bool) (thread_id : Option String)
    (pe : Option String) (sres : Except String (Option String × Option String))
    (dres : Except String (Option String)) (thr : String → Except String (List String))
    (h : py_lower (py_strip stdin_line) ∉ confirm_tokens) :
    (send_email account true ⟨Except.ok pe, sres, dres, thr⟩
        to_addr subject body cc bcc false from_address draft thread_id stdin_line).1
      = cancel_result
    ∧ cancel_result.success = false
    ∧ cancel_result.preview_only = true
    ∧ render_result cancel_result = ["📋 Preview shown. Email not saved/sent."]
    ∧ (∀ msg : String, render_result cancel_result ≠ ["❌ Failed: " ++ msg])
    ∧ (∀ r : ToolResult, r.success = false → r.preview_only = false →
        render_result r = ["❌ Failed: " ++ opt_str r.error]) := by
  refine ⟨?_, rfl, rfl, rfl, ?_, ?_⟩
  · cases from_address <;>
      simp [send_email, send_email_with_sender, h, cancel_result]
  · intro msg hmsg
    rw [show render_result cancel_result
        = ["📋 Preview shown. Email not saved/sent."] from rfl] at hmsg
    exact preview_line_ne_failed_line msg (List.cons.inj hmsg).1
  · intro r h1 h2
    simp [render_result, h1, h2]

/-- C9 witness: the cancellation rendering properties at concrete inputs. -/
theorem cancel_render_distinct_witness :
    (py_lower (py_strip "nope") ∉ confirm_tokens)
    ∧ ((send_email "livemomentssg@gmail.com" true
          ⟨Except.ok (some "me@x.y"), Except.ok (some "mid", some "tid"),
           Except.ok (some "did"), fun _ => Except.ok ["m9"]⟩
          "a@b.c" "S" "B" none none false (some "s@x.y") false none "nope").1
        = cancel_result
      ∧ cancel_result.success = false
      ∧ cancel_result.preview_only = true
      ∧ render_result cancel_result = ["📋 Preview shown. Email not saved/sent."]
      ∧ (∀ msg : String, render_result cancel_result ≠ ["❌ Failed: " ++ msg])
      ∧ (∀ r : ToolResult, r.success = false → r.preview_only = false →
          render_result r = ["❌ Failed: " ++ opt_str r.error])) :=
  ⟨by decide,
   cancel_render_distinct "livemomentssg@gmail.com" "a@b.c" "S" "B" "nope"
     none none (some "s@x.y") false none (some "me@x.y")
     (Except.ok (some "mid", some "tid")) (Except.ok (some "did"))
     (fun _ => Except.ok ["m9"]) (by decide)⟩
